import Mathlib

/-!
Verification development for the leptos_query cache engine
(src/src/query_client.rs, src/src/query_result.rs).

The cache operations are shallowly embedded: HashMaps become association
lists, reactive signal writes become explicit state passing, and the
`Box<dyn Any>` type erasure becomes a tagged box whose downcast compares
runtime type tags.  Code of the repository that is not under src/
(query.rs, query_executor.rs) is modelled from the spec; every such
definition is marked `Modelled from the spec:` in its doc comment.
-/

namespace LeptosQuery

/-- Time instants and durations are modelled as natural-number ticks
(instant.rs `Instant` wraps a monotone clock reading). -/
abbrev Instant := Nat

/-- Modelled from the spec: the per-entry `QueryState` enum from the missing
`query.rs`, per spec section 3 (Status): Created, Loading, Loaded, Fetching,
Invalid; the data-bearing variants carry the data and the updated_at stamp.
The example app (src/example/start-axum/src/app.rs:176-182) matches on
exactly these five variants. -/
inductive QueryState (V : Type) where
  | created
  | loading
  | loaded (data : V) (updatedAt : Instant)
  | fetching (data : V) (updatedAt : Instant)
  | invalid (data : V) (updatedAt : Instant)
deriving DecidableEq

variable {K V : Type} {R : Type} {β : Type}

/-- Current data of a state, as an optional value (`QueryState::data()` used at
src/src/query_client.rs:82). Modelled from the spec: absent before the first
fetch, retained by Loaded, Fetching and Invalid. -/
def QueryState.dataOf : QueryState V → Option V
  | .created => none
  | .loading => none
  | .loaded d _ => some d
  | .fetching d _ => some d
  | .invalid d _ => some d

/-- Modelled from the spec: the updated_at stamp of a state; set only on
successful fetch completion (spec section 3 invariants). -/
def QueryState.updatedAtOf : QueryState V → Option Instant
  | .created => none
  | .loading => none
  | .loaded _ t => some t
  | .fetching _ t => some t
  | .invalid _ t => some t

/-- Whether the state is Loading (first fetch in flight, no prior data). -/
def QueryState.isLoadingB : QueryState V → Bool
  | .loading => true
  | _ => false

/-- Whether the state is Fetching (refetch in flight, prior data shown). -/
def QueryState.isRefetchingB : QueryState V → Bool
  | .fetching _ _ => true
  | _ => false

/-- Whether the state is Invalid (explicitly invalidated). -/
def QueryState.isInvalidB : QueryState V → Bool
  | .invalid _ _ => true
  | _ => false

/-- Whether a fetch is in flight for the state (Loading or Fetching). -/
def QueryState.isInFlightB : QueryState V → Bool
  | .loading => true
  | .fetching _ _ => true
  | _ => false

/-- Modelled from the spec: `Query::mark_invalid` from the missing `query.rs`,
per the spec section 4.2 state machine table: Loaded, Fetching and Invalid
transition to Invalid with data and updated_at retained; the table has no
invalidate row for Created or Loading (the Invalid variant carries data),
so those states are left unchanged. -/
def markInvalid : QueryState V → QueryState V
  | .loaded d t => .invalid d t
  | .fetching d t => .invalid d t
  | .invalid d t => .invalid d t
  | .created => .created
  | .loading => .loading

/-- A cache entry (`Query<K, V>` from the missing `query.rs`): the key plus the
reactive status cell, here flattened to a plain value. -/
structure Query (K V : Type) where
  key : K
  state : QueryState V
deriving DecidableEq

/-- Modelled from the spec: `Query::new` constructs an entry in Created status
(spec section 4.1 get_or_create: "constructs a new entry in Created status"),
called at src/src/query_client.rs:226. -/
def Query.new (k : K) : Query K V := ⟨k, .created⟩

/-- `state.mark_invalid()` on an entry (the signal write made explicit). -/
def Query.markInvalidQ (q : Query K V) : Query K V :=
  { q with state := markInvalid q.state }

/-! ### Association lists modelling the HashMaps -/

/-- `HashMap::get`: first binding of the key, if any. -/
def alFind [DecidableEq K] : List (K × β) → K → Option β
  | [], _ => none
  | (a, b) :: t, k => if a = k then some b else alFind t k

/-- Apply `f` to the binding of `k` (interior mutation of one entry); the list
is unchanged when `k` is absent. -/
def alModify [DecidableEq K] : List (K × β) → K → (β → β) → List (K × β)
  | [], _, _ => []
  | (a, b) :: t, k, f => if a = k then (a, f b) :: t else (a, b) :: alModify t k f

/-- `HashMap::insert` / write-back of a borrowed entry: replace the binding of
`k`, appending it when absent. -/
def alSet [DecidableEq K] : List (K × β) → K → β → List (K × β)
  | [], k, b => [(k, b)]
  | (a, x) :: t, k, b => if a = k then (a, b) :: t else (a, x) :: alSet t k b

/-- `HashMap::remove` (eviction). -/
def alRemove [DecidableEq K] : List (K × β) → K → List (K × β)
  | [], _ => []
  | (a, b) :: t, k => if a = k then t else (a, b) :: alRemove t k

/-! ### The typed store operations (the code inside a successful downcast) -/

/-- The get-or-create body of `get_state` (src/src/query_client.rs:218-231):
an occupied entry is returned with `new = false`; a vacant entry is filled
with `Query::new(key)` and returned with `new = true`. -/
def store_get_or_create [DecidableEq K] (s : List (K × Query K V)) (k : K) :
    List (K × Query K V) × Query K V × Bool :=
  match alFind s k with
  | some q => (s, q, false)
  | none => ((k, Query.new k) :: s, Query.new k, true)

/-- The filtering loop of `invalidate_queries` (src/src/query_client.rs:145-155):
for each yielded key in order, if the store has an entry it is marked invalid
and the key is kept, otherwise the key is dropped.  The interior mutation done
by `state.mark_invalid()` is threaded explicitly. -/
def store_invalidate_many [DecidableEq K] :
    List (K × Query K V) → List K → List (K × Query K V) × List K
  | s, [] => (s, [])
  | s, k :: ks =>
    match alFind s k with
    | some _ =>
      let r := store_invalidate_many (alModify s k Query.markInvalidQ) ks
      (r.1, k :: r.2)
    | none => store_invalidate_many s ks

/-! ### The type-erased cache (`HashMap<TypeId, Box<dyn Any>>`) -/

/-- Runtime type identities (`std::any::TypeId`) of the Rust key and value
types in play; a small closed universe suffices for the claims. -/
inductive Ty | t0 | t1 | t2 | t3
deriving DecidableEq

/-- `TypeId::of::<K>()`: the identifier the cache map is keyed by
(src/src/query_client.rs:188 and :142, :170).  It is derived from the key
type alone; the value type does not enter. -/
def typeIdOfKey (kTy : Ty) : Ty := kTy

/-- A `Box<dyn Any>` holding a `CacheEntry<K, V>`
(src/src/query_client.rs:190-193): the key and value TypeIds the box was
created with, plus the stored map.  Key and value payloads are represented
uniformly as `Nat`; a downcast inspects only the tags, exactly as
`dyn Any` downcasting inspects only the TypeId. -/
structure AnyStore where
  kTy : Ty
  vTy : Ty
  store : List (Nat × Query Nat Nat)
deriving DecidableEq

/-- The client cache `HashMap<TypeId, Box<dyn Any>>`
(src/src/query_client.rs:32). -/
abbrev Cache := List (Ty × AnyStore)

/-- `box.downcast_ref::<CacheEntry<K, V>>()`: succeeds iff the box was created
for the same (K, V) pair (src/src/query_client.rs:143, :171, :196). -/
def downcast (b : AnyStore) (kTy vTy : Ty) : Option (List (Nat × Query Nat Nat)) :=
  if b.kTy = kTy ∧ b.vTy = vTy then some b.store else none

/-- `use_cache` (src/src/query_client.rs:179-201): get-or-insert the box at
`TypeId::of::<K>()`, downcast it, and run `func` on the typed store; a failed
downcast is the `expect("Query Cache Type Mismatch.")` panic, modelled as a
fatal `Except.error`. -/
def use_cache (kTy vTy : Ty) (c : Cache)
    (func : List (Nat × Query Nat Nat) → List (Nat × Query Nat Nat) × R) :
    Except String (Cache × R) :=
  let tid := typeIdOfKey kTy
  let box :=
    match alFind c tid with
    | some b => b
    | none => ⟨kTy, vTy, []⟩
  match downcast box kTy vTy with
  | some s =>
    let r := func s
    Except.ok (alSet c tid { box with store := r.1 }, r.2)
  | none => Except.error "Query Cache Type Mismatch."

/-- One evaluation of the `get_state` derived signal at the current key value
(src/src/query_client.rs:204-235): get-or-create inside `use_cache`.  The
returned Bool records whether the entry was created by this access. -/
def get_state (kTy vTy : Ty) (k : Nat) (c : Cache) :
    Except String (Cache × Query Nat Nat × Bool) :=
  use_cache kTy vTy c (fun s => store_get_or_create s k)

/-- `invalidate_query` (src/src/query_client.rs:121-130) together with the
read-only lookup `use_cache_option` (src/src/query_client.rs:162-176): a
missing box, a failed downcast (the `if let Some` fall-through) or a missing
entry all yield `false` with the cache unchanged; otherwise the entry is
marked invalid and the result is `true`. -/
def invalidate_query (kTy vTy : Ty) (k : Nat) (c : Cache) : Cache × Bool :=
  match alFind c (typeIdOfKey kTy) with
  | none => (c, false)
  | some box =>
    match downcast box kTy vTy with
    | none => (c, false)
    | some s =>
      match alFind s k with
      | none => (c, false)
      | some _ =>
        (alSet c (typeIdOfKey kTy)
          { box with store := alModify s k Query.markInvalidQ }, true)

/-- `invalidate_queries` (src/src/query_client.rs:134-160): `None` when the box
is missing or the downcast fails (the `if let Some` fall-throughs), otherwise
`Some` of the keys that passed the presence filter, with the marked store
written back. -/
def invalidate_queries (kTy vTy : Ty) (keys : List Nat) (c : Cache) :
    Cache × Option (List Nat) :=
  match alFind c (typeIdOfKey kTy) with
  | none => (c, none)
  | some box =>
    match downcast box kTy vTy with
    | none => (c, none)
    | some s =>
      let r := store_invalidate_many s keys
      (alSet c (typeIdOfKey kTy) { box with store := r.1 }, some r.2)

/-! ### The consumer-facing view (`QueryResult`, src/src/query_result.rs) -/

/-- The read-only reactive view returned to a consumer
(src/src/query_result.rs:5-28): optional current data, the loading, stale
and refetching boolean signals, the optional last-updated stamp, and the
refetch setter (an opaque trigger, modelled as a unit marker). -/
structure QueryResult (V : Type) where
  data : Option V
  is_loading : Bool
  is_stale : Bool
  is_refetching : Bool
  updated_at : Option Instant
  refetch : Unit
deriving DecidableEq

/-- Modelled from the spec: the staleness predicate computed at read time,
`is_stale = has(updated_at) and (now - updated_at) > stale_time`, never stale
when stale_time is unset (spec section 4.2); implements the missing
`QueryState::is_stale` used at src/src/query_result.rs:41. -/
def isStale (now : Instant) (staleTime : Option Nat) (u : Option Instant) : Bool :=
  match u, staleTime with
  | some t, some st => decide (st < now - t)
  | _, _ => false

/-- `QueryResult::from_state` (src/src/query_result.rs:34-53): each field read
off the entry state; the state accessor methods live in the missing `query.rs`
and are modelled from the spec (loading and refetching flags from the status,
staleness per the read-time predicate, data and updated_at from the status). -/
def fromState (now : Instant) (staleTime : Option Nat) (s : QueryState V) :
    QueryResult V :=
  { data := s.dataOf
    is_loading := s.isLoadingB
    is_stale := isStale now staleTime s.updatedAtOf
    is_refetching := s.isRefetchingB
    updated_at := s.updatedAtOf
    refetch := () }

/-! ### The fetch executor (modelled from the spec; query_executor.rs is not
under src/) -/

/-- An entry as the executor sees it: the status cell plus the per-entry
generation counter the spec mandates for stale-result discard (spec
section 5: "track an epoch or generation counter per entry and compare it at
completion time"). -/
structure Entry (V : Type) where
  state : QueryState V
  epoch : Nat
deriving DecidableEq

/-- Modelled from the spec: one executor invocation (spec section 4.3, from
the missing `query_executor.rs`).  Reads the status; an in-flight fetch
(Loading or Fetching) makes an unforced invocation an idempotent no-op (the
dedup guard); otherwise, or on a forced manual refetch, the entry moves to
Loading (no prior data) or Fetching (prior data retained), the epoch advances
and the fetch function is started - the returned value is the epoch of the
started fetch, `none` when nothing was started.  A Loaded entry refetches when
forced or when stale on access. -/
def invoke (now : Instant) (staleTime : Option Nat) (forced : Bool) (e : Entry V) :
    Entry V × Option Nat :=
  match e.state with
  | .created => (⟨.loading, e.epoch + 1⟩, some (e.epoch + 1))
  | .loading =>
    if forced then (⟨.loading, e.epoch + 1⟩, some (e.epoch + 1)) else (e, none)
  | .fetching d t =>
    if forced then (⟨.fetching d t, e.epoch + 1⟩, some (e.epoch + 1)) else (e, none)
  | .invalid d t => (⟨.fetching d t, e.epoch + 1⟩, some (e.epoch + 1))
  | .loaded d t =>
    if forced || isStale now staleTime (some t) then
      (⟨.fetching d t, e.epoch + 1⟩, some (e.epoch + 1))
    else (e, none)

/-- Modelled from the spec: completion of the fetch started at epoch `ep` with
value `v` at time `now` (spec sections 4.3 step 3 and 5): the result is
applied, moving the entry to Loaded with a fresh stamp, only when `ep` is
still the current epoch of the entry; a superseded completion is discarded. -/
def complete (e : Entry V) (ep : Nat) (v : V) (now : Instant) : Entry V :=
  if ep = e.epoch then { e with state := .loaded v now } else e

/-! ### Eviction (modelled from the spec; the Synchronizer is not under src/) -/

/-- An entry as the eviction logic sees it: status plus observer count. -/
structure ObsEntry (V : Type) where
  state : QueryState V
  observers : Nat
deriving DecidableEq

/-- Modelled from the spec: the one-shot eviction timer firing for `k` (spec
sections 4.4 and 7): the entry is removed only when it is still unobserved,
with `observer_count == 0` re-checked at fire time; otherwise the store is
left untouched. -/
def timerFire [DecidableEq K] (s : List (K × ObsEntry V)) (k : K) :
    List (K × ObsEntry V) :=
  match alFind s k with
  | some e => if e.observers = 0 then alRemove s k else s
  | none => s

/-! ### Concrete fixtures used by witnesses and counterexamples -/

/-- A loaded entry under key 1, data 5, stamped at time 2. -/
def qLoaded : Query Nat Nat := ⟨1, .loaded 5 2⟩

/-- A freshly created entry under key 9, never fetched. -/
def qCreated : Query Nat Nat := ⟨9, .created⟩

/-- A box created for key type t0 and value type t1. -/
def boxEx : AnyStore := ⟨.t0, .t1, [(1, qLoaded), (9, qCreated)]⟩

/-- A cache holding the one box, at the TypeId of its key type. -/
def cacheEx : Cache := [(.t0, boxEx)]

/-! ### Helper lemmas -/

theorem alFind_alModify [DecidableEq K] (s : List (K × β)) (k j : K) (f : β → β) :
    alFind (alModify s k f) j = if j = k then (alFind s k).map f else alFind s j := by
  induction s with
  | nil => simp [alFind, alModify]
  | cons p t ih =>
    obtain ⟨a, b⟩ := p
    by_cases hak : a = k
    · subst hak
      by_cases haj : a = j
      · subst haj
        simp [alModify, alFind]
      · have hja : ¬j = a := fun h => haj h.symm
        simp [alModify, alFind, haj, hja]
    · by_cases haj : a = j
      · subst haj
        simp [alModify, alFind, hak]
      · simp [alModify, alFind, hak, haj, ih]

theorem alFind_alSet [DecidableEq K] (s : List (K × β)) (k j : K) (b : β) :
    alFind (alSet s k b) j = if j = k then some b else alFind s j := by
  induction s with
  | nil =>
    by_cases h : j = k
    · subst h
      simp [alFind, alSet]
    · have hkj : ¬k = j := fun hh => h hh.symm
      simp [alFind, alSet, h, hkj]
  | cons p t ih =>
    obtain ⟨a, x⟩ := p
    by_cases hak : a = k
    · subst hak
      by_cases haj : a = j
      · subst haj
        simp [alSet, alFind]
      · have hja : ¬j = a := fun h => haj h.symm
        simp [alSet, alFind, haj, hja]
    · by_cases haj : a = j
      · subst haj
        simp [alSet, alFind, hak]
      · simp [alSet, alFind, hak, haj, ih]

theorem alSet_self [DecidableEq K] (s : List (K × β)) (k : K) (b : β)
    (h : alFind s k = some b) : alSet s k b = s := by
  induction s with
  | nil => simp [alFind] at h
  | cons p t ih =>
    obtain ⟨a, x⟩ := p
    by_cases hak : a = k
    · subst hak
      simp [alFind] at h
      simp [alSet, h]
    · simp [alFind, hak] at h
      simp [alSet, hak, ih h]

theorem alFind_eq_none_of_not_mem [DecidableEq K] (s : List (K × β)) (k : K)
    (h : k ∉ s.map Prod.fst) : alFind s k = none := by
  induction s with
  | nil => rfl
  | cons p t ih =>
    obtain ⟨a, b⟩ := p
    simp only [List.map_cons, List.mem_cons] at h
    push_neg at h
    have hak : ¬a = k := fun hh => h.1 hh.symm
    simp [alFind, hak, ih h.2]

theorem alFind_alRemove_self [DecidableEq K] (s : List (K × β)) (k : K)
    (hnd : (s.map Prod.fst).Nodup) : alFind (alRemove s k) k = none := by
  induction s with
  | nil => rfl
  | cons p t ih =>
    obtain ⟨a, b⟩ := p
    simp only [List.map_cons, List.nodup_cons] at hnd
    by_cases hak : a = k
    · subst hak
      simp [alRemove, alFind_eq_none_of_not_mem t a hnd.1]
    · simp [alRemove, alFind, hak, ih hnd.2]

theorem alFind_alRemove_ne [DecidableEq K] (s : List (K × β)) (k j : K)
    (h : j ≠ k) : alFind (alRemove s k) j = alFind s j := by
  induction s with
  | nil => rfl
  | cons p t ih =>
    obtain ⟨a, b⟩ := p
    by_cases hak : a = k
    · subst hak
      have haj : ¬a = j := fun hh => h (hh ▸ rfl)
      simp [alRemove, alFind, haj]
    · simp [alRemove, alFind, hak, ih]

theorem not_mem_of_alFind_eq_none [DecidableEq K] (s : List (K × β)) (k : K)
    (h : alFind s k = none) : k ∉ s.map Prod.fst := by
  induction s with
  | nil => simp
  | cons p t ih =>
    obtain ⟨a, b⟩ := p
    by_cases hak : a = k
    · simp [alFind, hak] at h
    · simp only [alFind, hak, if_false] at h
      simp only [List.map_cons, List.mem_cons]
      push_neg
      exact ⟨fun hh => hak hh.symm, ih h⟩

theorem markInvalid_idem (s : QueryState V) :
    markInvalid (markInvalid s) = markInvalid s := by
  cases s <;> rfl

theorem markInvalidQ_idem (q : Query K V) :
    Query.markInvalidQ (Query.markInvalidQ q) = Query.markInvalidQ q := by
  simp [Query.markInvalidQ, markInvalid_idem]

theorem sim_snd [DecidableEq K] (s : List (K × Query K V)) (keys : List K) :
    (store_invalidate_many s keys).2
      = keys.filter (fun k => (alFind s k).isSome) := by
  induction keys generalizing s with
  | nil => rfl
  | cons k ks ih =>
    cases h : alFind s k with
    | none => simp [store_invalidate_many, h, ih]
    | some q =>
      have hcong : ks.filter
            (fun j => (alFind (alModify s k Query.markInvalidQ) j).isSome)
          = ks.filter (fun j => (alFind s j).isSome) := by
        apply List.filter_congr
        intro j hj
        rw [alFind_alModify]
        by_cases hjk : j = k <;> simp [hjk, h]
      simp [store_invalidate_many, h, ih, hcong]

theorem sim_fst [DecidableEq K] (s : List (K × Query K V)) (keys : List K) (k : K) :
    alFind (store_invalidate_many s keys).1 k
      = (if k ∈ keys ∧ (alFind s k).isSome
         then (alFind s k).map Query.markInvalidQ else alFind s k) := by
  induction keys generalizing s with
  | nil => simp [store_invalidate_many]
  | cons a ks ih =>
    cases h : alFind s a with
    | none =>
      simp only [store_invalidate_many, h]
      rw [ih]
      by_cases hk : k = a
      · subst hk
        simp [h]
      · simp [List.mem_cons, hk]
    | some q =>
      simp only [store_invalidate_many, h]
      rw [ih, alFind_alModify]
      by_cases hk : k = a
      · subst hk
        by_cases hm : k ∈ ks <;>
          simp [h, hm, List.mem_cons, markInvalidQ_idem]
      · simp [hk, List.mem_cons]

/-! ### Claim C1 -/

/-- C1 counterexample: the runtime type identifier does not distinguish the
value type.  A box created by a use with key type t0 and value type t1 sits
at the TypeId of t0 alone; a later use with the same key type t0 but value
type t2 addresses that same slot (it finds the t1 box there) and its downcast
fails with the fatal "Query Cache Type Mismatch." panic, instead of the two
uses addressing distinct TypedStores as the claim states. -/
theorem c1_counterexample :
    alFind cacheEx (typeIdOfKey .t0) = some boxEx
    ∧ boxEx.vTy = .t1
    ∧ get_state .t0 .t2 7 cacheEx = .error "Query Cache Type Mismatch." :=
  ⟨rfl, rfl, rfl⟩

/-- C1 (amended): the cache holds at most one QueryEntry per key value: the
get-or-create access returns the existing entry without inserting when the
key is present, constructs and inserts a Created entry when it is absent, and
preserves key uniqueness; but the runtime type identifier addressing a
TypedStore is TypeId::of of the key type alone, so two uses with the same key
type and different value types address the same cache slot: the first creates
the typed store and repeated accesses return the same entry with the cache
unchanged, while the use with the other value type fails its downcast with
the fatal "Query Cache Type Mismatch." panic rather than obtaining a distinct
TypedStore (entries are therefore never shared across value types, but the
uses collide fatally rather than coexisting). -/
theorem c1_get_or_create_unique {K V : Type} [DecidableEq K]
    (s : List (K × Query K V)) (k k2 : K) (q : Query K V)
    (kTy v1 v2 : Ty) (key : Nat) (c : Cache)
    (hfound : alFind s k = some q)
    (hvacant : alFind s k2 = none)
    (hnd : (s.map Prod.fst).Nodup)
    (hempty : alFind c (typeIdOfKey kTy) = none)
    (hne : v1 ≠ v2) :
    store_get_or_create s k = (s, q, false)
    ∧ store_get_or_create s k2 = ((k2, Query.new k2) :: s, Query.new k2, true)
    ∧ ((store_get_or_create s k2).1.map Prod.fst).Nodup
    ∧ get_state kTy v1 key c
        = .ok (alSet c (typeIdOfKey kTy) ⟨kTy, v1, [(key, Query.new key)]⟩,
            Query.new key, true)
    ∧ get_state kTy v1 key
          (alSet c (typeIdOfKey kTy) ⟨kTy, v1, [(key, Query.new key)]⟩)
        = .ok (alSet c (typeIdOfKey kTy) ⟨kTy, v1, [(key, Query.new key)]⟩,
            Query.new key, false)
    ∧ get_state kTy v2 key
          (alSet c (typeIdOfKey kTy) ⟨kTy, v1, [(key, Query.new key)]⟩)
        = .error "Query Cache Type Mismatch." := by
  have hfind1 : alFind (alSet c (typeIdOfKey kTy) ⟨kTy, v1, [(key, Query.new key)]⟩)
      (typeIdOfKey kTy) = some ⟨kTy, v1, [(key, Query.new key)]⟩ := by
    simp [alFind_alSet]
  refine ⟨?_, ?_, ?_, ?_, ?_, ?_⟩
  · simp [store_get_or_create, hfound]
  · simp [store_get_or_create, hvacant]
  · simp only [store_get_or_create, hvacant, List.map_cons, List.nodup_cons]
    exact ⟨not_mem_of_alFind_eq_none s k2 hvacant, hnd⟩
  · simp [get_state, use_cache, hempty, downcast, store_get_or_create, alFind]
  · have hself := alSet_self _ _ _ hfind1
    simp [get_state, use_cache, hfind1, downcast, store_get_or_create, alFind]
    exact hself
  · simp [get_state, use_cache, hfind1, downcast, hne]

/-- C1 witness: the amended theorem evaluated at key type t2, value types t1
and t3, on the example cache (whose t2 slot is empty). -/
theorem c1_witness :
    alFind boxEx.store 1 = some qLoaded
    ∧ alFind boxEx.store 4 = none
    ∧ (boxEx.store.map Prod.fst).Nodup
    ∧ alFind cacheEx (typeIdOfKey .t2) = none
    ∧ Ty.t1 ≠ Ty.t3
    ∧ (store_get_or_create boxEx.store 1 = (boxEx.store, qLoaded, false)
      ∧ store_get_or_create boxEx.store 4
          = ((4, Query.new 4) :: boxEx.store, Query.new 4, true)
      ∧ ((store_get_or_create boxEx.store 4).1.map Prod.fst).Nodup
      ∧ get_state .t2 .t1 7 cacheEx
          = .ok (alSet cacheEx (typeIdOfKey .t2) ⟨.t2, .t1, [(7, Query.new 7)]⟩,
              Query.new 7, true)
      ∧ get_state .t2 .t1 7
            (alSet cacheEx (typeIdOfKey .t2) ⟨.t2, .t1, [(7, Query.new 7)]⟩)
          = .ok (alSet cacheEx (typeIdOfKey .t2) ⟨.t2, .t1, [(7, Query.new 7)]⟩,
              Query.new 7, false)
      ∧ get_state .t2 .t3 7
            (alSet cacheEx (typeIdOfKey .t2) ⟨.t2, .t1, [(7, Query.new 7)]⟩)
          = .error "Query Cache Type Mismatch.") :=
  ⟨rfl, rfl, by decide, rfl, by decide,
    c1_get_or_create_unique boxEx.store 1 4 qLoaded .t2 .t1 .t3 7 cacheEx
      rfl rfl (by decide) rfl (by decide)⟩

/-! ### Claim C4 -/

/-- C4 counterexample: with a t1-valued box in place, the invalidation paths
hit the same downcast mismatch the claim calls fatal, yet they return
normally - `invalidate_query` yields `false` and `invalidate_queries` yields
`None`, both leaving the cache unchanged - because both go through the
`if let Some` fall-through of `downcast_ref` rather than the panicking
`expect` used by `use_cache`. -/
theorem c4_counterexample :
    boxEx.vTy ≠ Ty.t2
    ∧ invalidate_query .t0 .t2 1 cacheEx = (cacheEx, false)
    ∧ invalidate_queries .t0 .t2 [1] cacheEx = (cacheEx, none) :=
  ⟨by decide, rfl, rfl⟩

/-- C4 (amended): a downcast mismatch on an existing type identifier is fatal
only for the get-or-create path: `use_cache` panics with "Query Cache Type
Mismatch.".  The lookup paths - `invalidate_query` via `use_cache_option`,
and `invalidate_queries` - treat the failed downcast like a missing store and
continue, returning `false` respectively `None` with the cache unchanged. -/
theorem c4_mismatch_behaviour (kTy vTy : Ty) (c : Cache) (box : AnyStore)
    (k : Nat) (keys : List Nat)
    (func : List (Nat × Query Nat Nat) → List (Nat × Query Nat Nat) × Bool)
    (hfind : alFind c (typeIdOfKey kTy) = some box)
    (hmis : ¬(box.kTy = kTy ∧ box.vTy = vTy)) :
    use_cache kTy vTy c func = .error "Query Cache Type Mismatch."
    ∧ invalidate_query kTy vTy k c = (c, false)
    ∧ invalidate_queries kTy vTy keys c = (c, none) := by
  refine ⟨?_, ?_, ?_⟩ <;>
    simp [use_cache, invalidate_query, invalidate_queries, hfind, downcast, hmis]

/-- C4 witness: the amended theorem evaluated at the t1-valued box accessed
with value type t2. -/
theorem c4_witness :
    alFind cacheEx (typeIdOfKey .t0) = some boxEx
    ∧ ¬(boxEx.kTy = Ty.t0 ∧ boxEx.vTy = Ty.t2)
    ∧ (use_cache .t0 .t2 cacheEx (fun s => (s, true))
          = .error "Query Cache Type Mismatch."
      ∧ invalidate_query .t0 .t2 1 cacheEx = (cacheEx, false)
      ∧ invalidate_queries .t0 .t2 [1] cacheEx = (cacheEx, none)) :=
  ⟨rfl, by decide,
    c4_mismatch_behaviour .t0 .t2 cacheEx boxEx 1 [1] (fun s => (s, true))
      rfl (by decide)⟩

/-! ### Claim C5 -/

/-- C5 counterexample: the example cache holds an entry for key 9 in Created
status, so by the claim `invalidate_query` must return true and transition
that entry to Invalid.  The call does return true, but it leaves the cache
(and hence the entry, still Created, not Invalid) unchanged: per the state
machine, invalidate only moves the data-bearing states to Invalid. -/
theorem c5_counterexample :
    invalidate_query .t0 .t1 9 cacheEx = (cacheEx, true)
    ∧ alFind boxEx.store 9 = some qCreated
    ∧ qCreated.state.isInvalidB = false :=
  ⟨rfl, rfl, rfl⟩

/-- C5 (amended): `invalidate_query k` returns true iff the store for the
(K, V) pair exists and holds an entry for `k`, in which case that entry is
passed through mark_invalid: a data-bearing state (Loaded, Fetching, Invalid)
becomes Invalid with its data and updated_at preserved, while a Created or
Loading entry is left unchanged even though true is returned; with no entry
for `k`, or no store for the type, the call returns false and changes
nothing. -/
theorem c5_invalidate_query (kTy vTy : Ty) (k k2 : Nat) (c c2 : Cache)
    (box : AnyStore) (q : Query Nat Nat)
    (hfind : alFind c (typeIdOfKey kTy) = some box)
    (hk : box.kTy = kTy) (hv : box.vTy = vTy)
    (hq : alFind box.store k = some q)
    (habsent : alFind box.store k2 = none)
    (hnone : alFind c2 (typeIdOfKey kTy) = none) :
    invalidate_query kTy vTy k c
      = (alSet c (typeIdOfKey kTy)
          { box with store := alModify box.store k Query.markInvalidQ }, true)
    ∧ alFind (alModify box.store k Query.markInvalidQ) k
        = some (Query.markInvalidQ q)
    ∧ (markInvalid q.state).dataOf = q.state.dataOf
    ∧ (markInvalid q.state).updatedAtOf = q.state.updatedAtOf
    ∧ (q.state.dataOf.isSome = true → (markInvalid q.state).isInvalidB = true)
    ∧ (q.state.dataOf = none → markInvalid q.state = q.state)
    ∧ invalidate_query kTy vTy k2 c = (c, false)
    ∧ invalidate_query kTy vTy k c2 = (c2, false) := by
  refine ⟨?_, ?_, ?_, ?_, ?_, ?_, ?_, ?_⟩
  · simp [invalidate_query, hfind, downcast, hk, hv, hq]
  · simp [alFind_alModify, hq]
  · cases q.state <;> simp [markInvalid, QueryState.dataOf]
  · cases q.state <;> simp [markInvalid, QueryState.updatedAtOf]
  · cases q.state <;> simp [markInvalid, QueryState.dataOf, QueryState.isInvalidB]
  · cases q.state <;> simp [markInvalid, QueryState.dataOf]
  · simp [invalidate_query, hfind, downcast, hk, hv, habsent]
  · simp [invalidate_query, hnone]

/-- C5 witness: the amended theorem evaluated on the example cache, marking
the loaded entry under key 1 invalid; key 4 is absent and the empty cache has
no store. -/
theorem c5_witness :
    alFind cacheEx (typeIdOfKey .t0) = some boxEx
    ∧ boxEx.kTy = Ty.t0
    ∧ boxEx.vTy = Ty.t1
    ∧ alFind boxEx.store 1 = some qLoaded
    ∧ alFind boxEx.store 4 = none
    ∧ alFind ([] : Cache) (typeIdOfKey .t0) = none
    ∧ (invalidate_query .t0 .t1 1 cacheEx
        = (alSet cacheEx (typeIdOfKey .t0)
            { boxEx with store := alModify boxEx.store 1 Query.markInvalidQ },
           true)
      ∧ alFind (alModify boxEx.store 1 Query.markInvalidQ) 1
          = some (Query.markInvalidQ qLoaded)
      ∧ (markInvalid qLoaded.state).dataOf = qLoaded.state.dataOf
      ∧ (markInvalid qLoaded.state).updatedAtOf = qLoaded.state.updatedAtOf
      ∧ (qLoaded.state.dataOf.isSome = true
          → (markInvalid qLoaded.state).isInvalidB = true)
      ∧ (qLoaded.state.dataOf = none → markInvalid qLoaded.state = qLoaded.state)
      ∧ invalidate_query .t0 .t1 4 cacheEx = (cacheEx, false)
      ∧ invalidate_query .t0 .t1 1 [] = ([], false)) :=
  ⟨rfl, rfl, rfl, rfl, rfl, rfl,
    c5_invalidate_query .t0 .t1 1 4 cacheEx [] boxEx qLoaded
      rfl rfl rfl rfl rfl rfl⟩

/-! ### Claim C6 -/

/-- C6 (confirmed): with a TypedStore for the key type present (and matching
the value type), `invalidate_queries` returns exactly the input keys whose
entry is present, in the input order with absent keys skipped; each present
key has its entry passed through mark_invalid in the written-back store,
absent keys change nothing and raise no error; with no store the call
invalidates nothing and returns the cache unchanged. -/
theorem c6_invalidate_queries (kTy vTy : Ty) (keys : List Nat) (c c2 : Cache)
    (box : AnyStore) (k : Nat)
    (hfind : alFind c (typeIdOfKey kTy) = some box)
    (hk : box.kTy = kTy) (hv : box.vTy = vTy)
    (hnone : alFind c2 (typeIdOfKey kTy) = none) :
    (invalidate_queries kTy vTy keys c).2
        = some (keys.filter (fun j => (alFind box.store j).isSome))
    ∧ alFind (invalidate_queries kTy vTy keys c).1 (typeIdOfKey kTy)
        = some { box with store := (store_invalidate_many box.store keys).1 }
    ∧ alFind (store_invalidate_many box.store keys).1 k
        = (if k ∈ keys ∧ (alFind box.store k).isSome
           then (alFind box.store k).map Query.markInvalidQ
           else alFind box.store k)
    ∧ invalidate_queries kTy vTy keys c2 = (c2, none) := by
  refine ⟨?_, ?_, ?_, ?_⟩
  · simp [invalidate_queries, hfind, downcast, hk, hv, sim_snd]
  · simp [invalidate_queries, hfind, downcast, hk, hv, alFind_alSet]
  · exact sim_fst box.store keys k
  · simp [invalidate_queries, hnone]

/-- C6 witness: the amended-free theorem evaluated on the example cache with
keys [1, 4, 9], of which 1 and 9 are present and 4 is absent. -/
theorem c6_witness :
    alFind cacheEx (typeIdOfKey .t0) = some boxEx
    ∧ boxEx.kTy = Ty.t0
    ∧ boxEx.vTy = Ty.t1
    ∧ alFind ([] : Cache) (typeIdOfKey .t0) = none
    ∧ ((invalidate_queries .t0 .t1 [1, 4, 9] cacheEx).2
        = some (([1, 4, 9] : List Nat).filter
            (fun j => (alFind boxEx.store j).isSome))
      ∧ alFind (invalidate_queries .t0 .t1 [1, 4, 9] cacheEx).1 (typeIdOfKey .t0)
          = some { boxEx with
              store := (store_invalidate_many boxEx.store [1, 4, 9]).1 }
      ∧ alFind (store_invalidate_many boxEx.store [1, 4, 9]).1 1
          = (if 1 ∈ ([1, 4, 9] : List Nat) ∧ (alFind boxEx.store 1).isSome
             then (alFind boxEx.store 1).map Query.markInvalidQ
             else alFind boxEx.store 1)
      ∧ invalidate_queries .t0 .t1 [1, 4, 9] [] = ([], none)) :=
  ⟨rfl, rfl, rfl, rfl,
    c6_invalidate_queries .t0 .t1 [1, 4, 9] cacheEx [] boxEx 1
      rfl rfl rfl rfl⟩

/-! ### Claim C10 -/

/-- C10 (confirmed): each occurrence yielded by the key iterator passes the
presence filter independently: the returned vector contains a present key
once per occurrence (its count in the output equals its count in the input),
so the output may contain duplicates, and the output length equals the number
of yielded occurrences whose key is present, not the number of distinct
matching keys. -/
theorem c10_invalidate_queries_duplicates (kTy vTy : Ty) (keys : List Nat)
    (c : Cache) (box : AnyStore) (k : Nat)
    (hfind : alFind c (typeIdOfKey kTy) = some box)
    (hk : box.kTy = kTy) (hv : box.vTy = vTy) :
    ((invalidate_queries kTy vTy keys c).2).map List.length
        = some (keys.countP (fun j => (alFind box.store j).isSome))
    ∧ ((invalidate_queries kTy vTy keys c).2).map (fun l => l.count k)
        = some (if (alFind box.store k).isSome
                then keys.count k else 0) := by
  have hsnd : (invalidate_queries kTy vTy keys c).2
      = some (keys.filter (fun j => (alFind box.store j).isSome)) := by
    simp [invalidate_queries, hfind, downcast, hk, hv, sim_snd]
  refine ⟨?_, ?_⟩
  · rw [hsnd]
    simp [List.countP_eq_length_filter]
  · rw [hsnd]
    by_cases hp : (alFind box.store k).isSome
    · have hc : List.count k (List.filter (fun j => (alFind box.store j).isSome) keys)
          = List.count k keys := List.count_filter hp
      simp [hp, hc]
    · have hmem : k ∉ keys.filter (fun j => (alFind box.store j).isSome) := by
        simp [List.mem_filter, hp]
      simp [hp, List.count_eq_zero.mpr hmem]

/-- C10 witness: keys [1, 4, 1] against the example store: key 1 is present
and yielded twice, so the output is [1, 1] - length 2, count of 1 equal 2. -/
theorem c10_witness :
    alFind cacheEx (typeIdOfKey .t0) = some boxEx
    ∧ boxEx.kTy = Ty.t0
    ∧ boxEx.vTy = Ty.t1
    ∧ (((invalidate_queries .t0 .t1 [1, 4, 1] cacheEx).2).map List.length
        = some (([1, 4, 1] : List Nat).countP
            (fun j => (alFind boxEx.store j).isSome))
      ∧ ((invalidate_queries .t0 .t1 [1, 4, 1] cacheEx).2).map
            (fun l => l.count 1)
          = some (if (alFind boxEx.store 1).isSome
                  then ([1, 4, 1] : List Nat).count 1 else 0)) :=
  ⟨rfl, rfl, rfl,
    c10_invalidate_queries_duplicates .t0 .t1 [1, 4, 1] cacheEx boxEx 1
      rfl rfl rfl⟩

/-! ### Claim C2 -/

/-- C2 (confirmed, executor modelled from the spec): the dedup guard makes any
unforced executor invocation on an entry whose fetch is in flight an
idempotent no-op, so at most one current fetch runs per entry; in the
two-concurrent-observers scenario, both observers share one Created entry,
the first invocation of the tick starts the single fetch (moving the entry to
Loading), the second invocation of the same tick starts nothing and leaves
the entry untouched, and after the one completion both observers read the
same entry and therefore see the same data and the same timestamp. -/
theorem c2_dedup {V : Type} (e : Entry V) (now m : Instant) (st : Option Nat)
    (v : V) (n0 : Nat)
    (hin : e.state.isInFlightB = true) :
    invoke now st false e = (e, none)
    ∧ invoke now st false (⟨.created, n0⟩ : Entry V)
        = (⟨.loading, n0 + 1⟩, some (n0 + 1))
    ∧ invoke now st false (⟨.loading, n0 + 1⟩ : Entry V)
        = (⟨.loading, n0 + 1⟩, none)
    ∧ complete (⟨.loading, n0 + 1⟩ : Entry V) (n0 + 1) v m
        = ⟨.loaded v m, n0 + 1⟩
    ∧ (QueryState.loaded v m).dataOf = some v
    ∧ (QueryState.loaded v m).updatedAtOf = some m := by
  refine ⟨?_, ?_, ?_, ?_, rfl, rfl⟩
  · obtain ⟨s, ep⟩ := e
    cases s <;> simp_all [QueryState.isInFlightB, invoke]
  · rfl
  · rfl
  · simp [complete]

/-- C2 witness: the theorem evaluated on an in-flight Loading entry and the
two-observer scenario starting from epoch 0 with fetched value 42 at time 5. -/
theorem c2_witness :
    (QueryState.loading : QueryState Nat).isInFlightB = true
    ∧ (invoke 0 none false (⟨.loading, 3⟩ : Entry Nat) = (⟨.loading, 3⟩, none)
      ∧ invoke 0 none false (⟨.created, 0⟩ : Entry Nat)
          = (⟨.loading, 0 + 1⟩, some (0 + 1))
      ∧ invoke 0 none false (⟨.loading, 0 + 1⟩ : Entry Nat)
          = (⟨.loading, 0 + 1⟩, none)
      ∧ complete (⟨.loading, 0 + 1⟩ : Entry Nat) (0 + 1) 42 5
          = ⟨.loaded 42 5, 0 + 1⟩
      ∧ (QueryState.loaded 42 5).dataOf = some 42
      ∧ (QueryState.loaded 42 5).updatedAtOf = some 5) :=
  ⟨rfl, c2_dedup (⟨.loading, 3⟩ : Entry Nat) 0 5 none 42 0 rfl⟩

/-! ### Claim C3 -/

/-- C3 (confirmed, executor modelled from the spec, which mandates the
per-entry generation counter): a completion whose epoch is not the current
epoch of the entry is discarded without any change to status, data or
timestamp; in the two-refetch scenario, the first manual refetch starts the
fetch of epoch ep0+1, the second (triggered while the first is in flight)
supersedes it with epoch ep0+2, the completion of the second is applied, and
the completion of the first - arriving after it - is discarded, so the final
status, data and timestamp reflect the later-triggered fetch. -/
theorem c3_stale_result_discard {V : Type} (e : Entry V) (ep : Nat) (v : V)
    (now : Instant) (d0 v1 v2 : V) (t0 n0 n1 n2 : Instant) (ep0 : Nat)
    (hne : ep ≠ e.epoch) :
    complete e ep v now = e
    ∧ invoke n0 none true (⟨.loaded d0 t0, ep0⟩ : Entry V)
        = (⟨.fetching d0 t0, ep0 + 1⟩, some (ep0 + 1))
    ∧ invoke n0 none true (⟨.fetching d0 t0, ep0 + 1⟩ : Entry V)
        = (⟨.fetching d0 t0, ep0 + 2⟩, some (ep0 + 2))
    ∧ complete (⟨.fetching d0 t0, ep0 + 2⟩ : Entry V) (ep0 + 2) v2 n2
        = ⟨.loaded v2 n2, ep0 + 2⟩
    ∧ complete (⟨.loaded v2 n2, ep0 + 2⟩ : Entry V) (ep0 + 1) v1 n1
        = ⟨.loaded v2 n2, ep0 + 2⟩ := by
  refine ⟨?_, rfl, rfl, ?_, ?_⟩
  · simp [complete, hne]
  · simp [complete]
  · have h12 : ¬(ep0 + 1 = ep0 + 2) := by omega
    simp [complete, h12]

/-- C3 witness: the theorem evaluated with a stale completion of epoch 3
against an entry at epoch 5, and the concrete two-refetch scenario from
epoch 0 where the first fetch returns 11 after the second returned 22. -/
theorem c3_witness :
    (3 : Nat) ≠ (⟨QueryState.loaded 0 0, 5⟩ : Entry Nat).epoch
    ∧ (complete (⟨QueryState.loaded 0 0, 5⟩ : Entry Nat) 3 99 9
          = ⟨QueryState.loaded 0 0, 5⟩
      ∧ invoke 1 none true (⟨.loaded 10 0, 0⟩ : Entry Nat)
          = (⟨.fetching 10 0, 0 + 1⟩, some (0 + 1))
      ∧ invoke 1 none true (⟨.fetching 10 0, 0 + 1⟩ : Entry Nat)
          = (⟨.fetching 10 0, 0 + 2⟩, some (0 + 2))
      ∧ complete (⟨.fetching 10 0, 0 + 2⟩ : Entry Nat) (0 + 2) 22 7
          = ⟨.loaded 22 7, 0 + 2⟩
      ∧ complete (⟨.loaded 22 7, 0 + 2⟩ : Entry Nat) (0 + 1) 11 9
          = ⟨.loaded 22 7, 0 + 2⟩) :=
  ⟨by decide,
    c3_stale_result_discard (⟨QueryState.loaded 0 0, 5⟩ : Entry Nat) 3 99 9
      10 11 22 0 1 9 7 0 (by decide)⟩

/-! ### Claim C7 -/

/-- C7 counterexample: the view does not expose the invalidated status.  A
Loaded state and the Invalid state with the same data and timestamp produce
identical QueryResult views (same data, same loading, stale and refetching
flags, same updated_at), even though only one of the two states is
invalidated - so no boolean signal of the returned view reflects the
invalidated status, contradicting the claimed list of exposed signals. -/
theorem c7_counterexample :
    fromState 7 (some 3) (QueryState.loaded 5 1)
      = fromState 7 (some 3) (QueryState.invalid 5 1)
    ∧ (QueryState.loaded 5 1 : QueryState Nat).isInvalidB = false
    ∧ (QueryState.invalid 5 1 : QueryState Nat).isInvalidB = true :=
  ⟨rfl, rfl, rfl⟩

/-- C7 (amended): the returned read-only view exposes the current data as an
optional value (absent in the Created and Loading states, before the first
fetch), a boolean loading signal that holds exactly in the Loading state, a
boolean refetching signal for the Fetching state, the read-time staleness
boolean, and the optional last-updated timestamp (absent before the first
successful fetch); the refetch trigger forces the executor to start a fetch
from a Loaded entry regardless of staleness.  No separate invalidated signal
is exposed. -/
theorem c7_query_result_view {V : Type} (now : Instant) (st : Option Nat)
    (s : QueryState V) (d : V) (t : Instant) (ep : Nat) :
    (fromState now st s).data = s.dataOf
    ∧ (fromState now st (QueryState.created : QueryState V)).data = none
    ∧ (fromState now st (QueryState.loading : QueryState V)).data = none
    ∧ (fromState now st (QueryState.loaded d t)).data = some d
    ∧ ((fromState now st s).is_loading = true ↔ s = QueryState.loading)
    ∧ (fromState now st (QueryState.fetching d t)).is_refetching = true
    ∧ (fromState now st (QueryState.loaded d t)).is_refetching = false
    ∧ (fromState now st s).is_stale = isStale now st s.updatedAtOf
    ∧ (fromState now st s).updated_at = s.updatedAtOf
    ∧ (fromState now st (QueryState.created : QueryState V)).updated_at = none
    ∧ (fromState now st (QueryState.loaded d t)).updated_at = some t
    ∧ invoke now st true (⟨.loaded d t, ep⟩ : Entry V)
        = (⟨.fetching d t, ep + 1⟩, some (ep + 1)) := by
  refine ⟨rfl, rfl, rfl, rfl, ?_, rfl, rfl, rfl, rfl, rfl, rfl, ?_⟩
  · cases s <;> simp [fromState, QueryState.isLoadingB]
  · simp [invoke]

/-! ### Claim C8 -/

/-- C8 (confirmed, staleness predicate modelled from the spec): staleness is
derived at read time from the clock, not stored in the status: is_stale holds
exactly when updated_at is set, stale_time is set, and now - updated_at
exceeds stale_time; with stale_time unset the entry is never stale; observing
a stale Loaded entry surfaces is_stale true in the view while the previously
loaded data is still exposed unchanged, and an unforced executor invocation
on a Loaded entry starts a refetch exactly when the entry is stale. -/
theorem c8_staleness {V : Type} (now : Instant) (stOpt : Option Nat)
    (u : Option Instant) (d : V) (t : Instant) (ep : Nat) :
    (isStale now stOpt u = true
        ↔ ∃ t0 s0, u = some t0 ∧ stOpt = some s0 ∧ s0 < now - t0)
    ∧ isStale now none u = false
    ∧ isStale now stOpt none = false
    ∧ (fromState now stOpt (QueryState.loaded d t)).is_stale
        = isStale now stOpt (some t)
    ∧ (fromState now stOpt (QueryState.loaded d t)).data = some d
    ∧ ((invoke now stOpt false (⟨.loaded d t, ep⟩ : Entry V)).2).isSome
        = isStale now stOpt (some t) := by
  refine ⟨?_, ?_, ?_, rfl, rfl, ?_⟩
  · cases u with
    | none => simp [isStale]
    | some t0 =>
      cases stOpt with
      | none => simp [isStale]
      | some s0 => simp [isStale]
  · cases u <;> simp [isStale]
  · rfl
  · by_cases hs : isStale now stOpt (some t) = true
    · simp [invoke, hs]
    · simp only [Bool.not_eq_true] at hs
      simp [invoke, hs]

/-! ### Claim C9 -/

/-- C9 (confirmed, eviction modelled from the spec): when the one-shot
eviction timer fires for a key, the observer count is re-checked at fire
time: the entry is removed only when it is still unobserved, while if any
observer is present at fire time the store is left exactly as it was - the
entry remains the same instance with data and timestamp untouched - and in
either case entries under other keys are unaffected. -/
theorem c9_eviction_recheck {K V : Type} [DecidableEq K]
    (s : List (K × ObsEntry V)) (k j : K) (e : ObsEntry V)
    (hfind : alFind s k = some e)
    (hnd : (s.map Prod.fst).Nodup)
    (hj : j ≠ k) :
    (e.observers = 0
      → timerFire s k = alRemove s k ∧ alFind (timerFire s k) k = none)
    ∧ (e.observers ≠ 0
      → timerFire s k = s ∧ alFind (timerFire s k) k = some e)
    ∧ alFind (timerFire s k) j = alFind s j := by
  refine ⟨fun h0 => ⟨?_, ?_⟩, fun hpos => ⟨?_, ?_⟩, ?_⟩
  · simp [timerFire, hfind, h0]
  · simp [timerFire, hfind, h0, alFind_alRemove_self s k hnd]
  · simp [timerFire, hfind, hpos]
  · simp [timerFire, hfind, hpos]
  · by_cases h0 : e.observers = 0 <;>
      simp [timerFire, hfind, h0, alFind_alRemove_ne s k j hj]

/-- C9 witness: the theorem evaluated on a two-entry store whose entry under
key 3 has zero observers at fire time (removed) while the entry under key 4
is untouched. -/
theorem c9_witness :
    alFind ([(3, ⟨QueryState.loaded 5 2, 0⟩), (4, ⟨QueryState.loaded 6 2, 1⟩)]
        : List (Nat × ObsEntry Nat)) 3 = some ⟨QueryState.loaded 5 2, 0⟩
    ∧ ((([(3, ⟨QueryState.loaded 5 2, 0⟩), (4, ⟨QueryState.loaded 6 2, 1⟩)]
        : List (Nat × ObsEntry Nat)).map Prod.fst).Nodup)
    ∧ (4 : Nat) ≠ 3
    ∧ (((⟨QueryState.loaded 5 2, 0⟩ : ObsEntry Nat).observers = 0
        → timerFire ([(3, ⟨QueryState.loaded 5 2, 0⟩),
              (4, ⟨QueryState.loaded 6 2, 1⟩)] : List (Nat × ObsEntry Nat)) 3
            = alRemove ([(3, ⟨QueryState.loaded 5 2, 0⟩),
              (4, ⟨QueryState.loaded 6 2, 1⟩)] : List (Nat × ObsEntry Nat)) 3
          ∧ alFind (timerFire ([(3, ⟨QueryState.loaded 5 2, 0⟩),
              (4, ⟨QueryState.loaded 6 2, 1⟩)] : List (Nat × ObsEntry Nat)) 3) 3
            = none)
      ∧ ((⟨QueryState.loaded 5 2, 0⟩ : ObsEntry Nat).observers ≠ 0
        → timerFire ([(3, ⟨QueryState.loaded 5 2, 0⟩),
              (4, ⟨QueryState.loaded 6 2, 1⟩)] : List (Nat × ObsEntry Nat)) 3
            = [(3, ⟨QueryState.loaded 5 2, 0⟩), (4, ⟨QueryState.loaded 6 2, 1⟩)]
          ∧ alFind (timerFire ([(3, ⟨QueryState.loaded 5 2, 0⟩),
              (4, ⟨QueryState.loaded 6 2, 1⟩)] : List (Nat × ObsEntry Nat)) 3) 3
            = some ⟨QueryState.loaded 5 2, 0⟩)
      ∧ alFind (timerFire ([(3, ⟨QueryState.loaded 5 2, 0⟩),
            (4, ⟨QueryState.loaded 6 2, 1⟩)] : List (Nat × ObsEntry Nat)) 3) 4
          = alFind ([(3, ⟨QueryState.loaded 5 2, 0⟩),
            (4, ⟨QueryState.loaded 6 2, 1⟩)] : List (Nat × ObsEntry Nat)) 4) :=
  ⟨rfl, by decide, by decide,
    c9_eviction_recheck
      ([(3, ⟨QueryState.loaded 5 2, 0⟩), (4, ⟨QueryState.loaded 6 2, 1⟩)]
        : List (Nat × ObsEntry Nat)) 3 4 ⟨QueryState.loaded 5 2, 0⟩
      rfl (by decide) (by decide)⟩

end LeptosQuery
